import Mathlib

/-!
Verification development for the heliumjs RPC/worker core.

Shallow embedding of:
- the wire protocol types (src/runtime/protocol.ts),
- the server-side dispatcher `RpcRegistry.handleMessage` (rpcRegistry.ts),
- the client connection manager and pending-call table (src/client/rpcClient.ts),
- the worker supervisor (defineWorker.ts: `startWorker`, `getWorkerStatus`,
  `getWorkerById`).

JavaScript heap objects that are shared by reference (worker instances) are
modelled with an explicit heap of numbered cells; `Map` objects are modelled
as association lists observed only through lookup.
-/

namespace Helium

/-! ## Association-list maps (model of JS `Map` and of the object heap) -/

/-- Lookup in an association list; model of `Map.get`. -/
def alistLookup {α β : Type} [DecidableEq α] : List (α × β) → α → Option β
  | [], _ => none
  | (a, b) :: t, k => if a = k then some b else alistLookup t k

/-- Remove every binding of a key; model of `Map.delete` (a `Map` holds at
most one binding per key, so observationally this is the same). -/
def alistErase {α β : Type} [DecidableEq α] : List (α × β) → α → List (α × β)
  | [], _ => []
  | (a, b) :: t, k => if a = k then alistErase t k else (a, b) :: alistErase t k

/-- Update the value stored at a key in place (no-op if absent); model of
mutating the object a map entry points to. -/
def alistModify {α β : Type} [DecidableEq α] : List (α × β) → α → (β → β) → List (α × β)
  | [], _, _ => []
  | (a, b) :: t, k, f => if a = k then (a, f b) :: alistModify t k f else (a, b) :: alistModify t k f

theorem alistLookup_erase_self {α β : Type} [DecidableEq α] (l : List (α × β)) (k : α) :
    alistLookup (alistErase l k) k = none := by
  induction l with
  | nil => rfl
  | cons hd t ih =>
    obtain ⟨a, b⟩ := hd
    by_cases h : a = k
    · simp [alistErase, h, ih]
    · simp [alistErase, alistLookup, h, ih]

theorem alistLookup_erase_ne {α β : Type} [DecidableEq α] (l : List (α × β)) (k k' : α)
    (h : k' ≠ k) : alistLookup (alistErase l k) k' = alistLookup l k' := by
  induction l with
  | nil => rfl
  | cons hd t ih =>
    obtain ⟨a, b⟩ := hd
    by_cases ha : a = k
    · subst ha
      have hak : ¬ a = k' := fun hh => h hh.symm
      simp [alistErase, alistLookup, hak, ih]
    · simp only [alistErase, alistLookup, ha, if_false, ite_false]
      by_cases hk : a = k'
      · simp [alistLookup, hk]
      · simp [alistLookup, hk, ih]

theorem alistErase_of_lookup_none {α β : Type} [DecidableEq α] (l : List (α × β)) (k : α)
    (h : alistLookup l k = none) : alistErase l k = l := by
  induction l with
  | nil => rfl
  | cons hd t ih =>
    obtain ⟨a, b⟩ := hd
    by_cases ha : a = k
    · simp [alistLookup, ha] at h
    · simp [alistLookup, ha] at h
      simp [alistErase, ha, ih h]

theorem alistLookup_modify_self {α β : Type} [DecidableEq α] (l : List (α × β)) (k : α)
    (f : β → β) (b : β) (h : alistLookup l k = some b) :
    alistLookup (alistModify l k f) k = some (f b) := by
  induction l with
  | nil => simp [alistLookup] at h
  | cons hd t ih =>
    obtain ⟨a, v⟩ := hd
    by_cases ha : a = k
    · simp [alistLookup, ha] at h
      simp [alistModify, alistLookup, ha, h]
    · simp [alistLookup, ha] at h
      simp [alistModify, alistLookup, ha, ih h]

/-! ## Wire protocol (src/runtime/protocol.ts)

`RpcRequest.id : string | number`; payloads (`args`, `result`, the value
thrown by a handler) are opaque `unknown` values, modelled by a small
universe `JsonValue`. -/

inductive RpcId : Type
  | str (s : String)
  | num (n : Int)
deriving DecidableEq, Repr

/-- Opaque JS payload universe (arguments, results, error payloads). -/
inductive JsonValue : Type
  | null
  | bool (b : Bool)
  | num (n : Int)
  | str (s : String)
deriving DecidableEq, Repr

/-- `RpcStats` from protocol.ts: rate-limit bookkeeping. -/
structure RpcStats : Type where
  remainingRequests : Int
  resetInSeconds : Int
deriving DecidableEq, Repr

/-- `RpcRequest` from protocol.ts (`args?: unknown` — optional). -/
structure RpcRequest : Type where
  id : RpcId
  method : String
  args : Option JsonValue
deriving DecidableEq, Repr

/-! ## Server dispatcher (rpcRegistry.ts: `RpcRegistry.handleMessage`)

The dispatcher receives a raw frame; `JSON.parse` either yields a request
object or throws.  A raw frame is therefore modelled as either malformed or
as the encoding of a request. -/

inductive RawFrame : Type
  | malformed
  | encodes (req : RpcRequest)
deriving DecidableEq, Repr

/-- Model of the `JSON.parse` step of `handleMessage` (lines 21–26). -/
def decodeFrame : RawFrame → Option RpcRequest
  | .malformed => none
  | .encodes req => some req

/-- A thrown JS value: `err?.message` may be absent. -/
structure Thrown : Type where
  message : Option String
deriving DecidableEq, Repr

/-- Shape of the `error` field of a response actually placed on the wire:
the declared protocol type says a bare string, the dispatcher builds a
structured `\x7bmessage\x7d` object; the embedding records which one was sent. -/
inductive ErrorShape : Type
  | bare (s : String)
  | structured (message : String)
deriving DecidableEq, Repr

/-- A response object as the dispatcher actually constructs it and passes to
`socket.send`.  `stats`, `result` and `error` record presence/absence of the
corresponding field on the emitted object. -/
structure SentResponse : Type where
  id : RpcId
  ok : Bool
  stats : Option RpcStats
  result : Option JsonValue
  error : Option ErrorShape
deriving DecidableEq, Repr

/-- The three response builders of `handleMessage`:
`\x7bid, ok:false, error:\x7bmessage: "Unknown method " + name\x7d\x7d` (lines 30–35). -/
def unknownMethodResponse (id : RpcId) (m : String) : SentResponse :=
  { id := id, ok := false, stats := none, result := none,
    error := some (.structured ("Unknown method " ++ m)) }

/-- `\x7bid, ok:false, error:\x7bmessage:"Request blocked by middleware"\x7d\x7d` (lines 60–65). -/
def blockedResponse (id : RpcId) : SentResponse :=
  { id := id, ok := false, stats := none, result := none,
    error := some (.structured "Request blocked by middleware") }

/-- `\x7bid, ok:true, result\x7d` (lines 73–78); `result` may be `undefined` when the
middleware swallowed the handler's outcome. -/
def successResponse (id : RpcId) (r : Option JsonValue) : SentResponse :=
  { id := id, ok := true, stats := none, result := r, error := none }

/-- The catch-all failure `\x7bid, ok:false, error:\x7bmessage: err?.message ?? "Server error"\x7d\x7d`
(lines 80–85). -/
def caughtErrorResponse (id : RpcId) (e : Thrown) : SentResponse :=
  { id := id, ok := false, stats := none, result := none,
    error := some (.structured (e.message.getD "Server error")) }

/-- Declared response shape from protocol.ts: `RpcSuccess`/`RpcError` both
*require* a `stats` field and declare `error` as a bare string. -/
def matchesDeclaredProtocol (r : SentResponse) : Bool :=
  r.stats.isSome &&
    (if r.ok then r.error.isNone && r.result.isSome
     else match r.error with
       | some (.bare _) => true
       | _ => false)

/-- `HeliumMethodDef.handler(args, ctx)`: the request context is the empty
object (`const ctx = \x7b\x7d // TODO: add real context`), modelled as `Unit`;
the handler either returns a value or throws. -/
structure MethodDef : Type where
  handler : Option JsonValue → Unit → Except Thrown JsonValue

inductive MwType : Type
  | method
  | http
deriving DecidableEq, Repr

/-- The context object passed to the middleware: `\x7bctx, type:"method", methodName\x7d`. -/
structure MwCtx : Type where
  type : MwType
  methodName : Option String
deriving DecidableEq, Repr

/-- Interaction tree of a (terminating) middleware with its continuation
`next`: either it finishes (returning normally or throwing) without another
call to `next`, or it calls `next` and continues depending on the outcome
`next` produced (so a middleware may rethrow or swallow a handler error).
This captures exactly what a JS middleware that awaits each `next()` call
can observably do to the dispatcher. -/
inductive MwRun : Type
  | done (outcome : Except Thrown Unit)
  | callNext (k : Except Thrown Unit → MwRun)

/-- A middleware (`HeliumMiddleware.handler`) maps its context to its
interaction with the continuation. -/
def Middleware : Type := MwCtx → MwRun

/-- `RpcRegistry` fields: a method map and a single middleware slot. -/
structure Registry : Type where
  methods : List (String × MethodDef)
  middleware : Option Middleware

/-- Dispatcher-local per-request state: the `nextCalled` flag and `result`
variable of `handleMessage`, plus a ghost counter of handler invocations
(the spec's "side-effect counter"). -/
structure RunState : Type where
  nextCalled : Bool
  result : Option JsonValue
  handlerCalls : Nat
deriving DecidableEq, Repr

def initRunState : RunState := { nextCalled := false, result := none, handlerCalls := 0 }

/-- Run a middleware interaction tree against the real continuation of
`handleMessage` (lines 52–56): each `next()` sets `nextCalled`, invokes the
target handler, stores its result, and rethrows a handler exception into
the middleware. -/
def runMw (h : Unit → Except Thrown JsonValue) : MwRun → RunState → RunState × Except Thrown Unit
  | .done o, s => (s, o)
  | .callNext k, s =>
    let s1 : RunState := { s with nextCalled := true, handlerCalls := s.handlerCalls + 1 }
    match h () with
    | .ok v => runMw h (k (.ok ())) { s1 with result := some v }
    | .error e => runMw h (k (.error e)) s1

/-- Dispatch of a decoded request (lines 28–86): registry lookup, optional
middleware, the blocked check, and the outer try/catch that converts any
exception from the middleware or handler into a failure response.  Returns
the list of frames passed to `socket.send` together with the number of
handler invocations. -/
def dispatchReq (reg : Registry) (req : RpcRequest) : List SentResponse × Nat :=
  match alistLookup reg.methods req.method with
  | none => ([unknownMethodResponse req.id req.method], 0)
  | some d =>
    match reg.middleware with
    | none =>
      match d.handler req.args () with
      | .ok v => ([successResponse req.id (some v)], 1)
      | .error e => ([caughtErrorResponse req.id e], 1)
    | some mw =>
      let run := runMw (fun _ => d.handler req.args ())
        (mw { type := .method, methodName := some req.method }) initRunState
      match run.2 with
      | .error e => ([caughtErrorResponse req.id e], run.1.handlerCalls)
      | .ok _ =>
        if run.1.nextCalled then ([successResponse req.id run.1.result], run.1.handlerCalls)
        else ([blockedResponse req.id], run.1.handlerCalls)

/-- `RpcRegistry.handleMessage` with its ghost handler-invocation count.
An undecodable frame returns without sending (lines 21–26). -/
def handleMessageAux (reg : Registry) (f : RawFrame) : List SentResponse × Nat :=
  match decodeFrame f with
  | none => ([], 0)
  | some req => dispatchReq reg req

/-- The frames `handleMessage` sends for one inbound frame.  The function is
total: every exception path of the source is absorbed into a response, which
is the formal counterpart of "the dispatcher never propagates an exception". -/
def handleMessage (reg : Registry) (f : RawFrame) : List SentResponse :=
  (handleMessageAux reg f).1

/-- Ghost observation: how many times the target handler ran. -/
def handlerInvocations (reg : Registry) (f : RawFrame) : Nat :=
  (handleMessageAux reg f).2

/-! ## Client connection manager (src/client/rpcClient.ts)

Module state: `let socket`, `let connectionPromise`, and the pending-call
table `const pending = new Map(...)`.  Pending entries hold the resolve /
reject callbacks of one caller; a caller is identified by a number. -/

/-- The pending-call table, keyed by the request id (`pending`).  The stored
value identifies the caller whose callbacks the entry holds. -/
def Pending : Type := List (RpcId × Nat)

def pendingLookup (p : Pending) (k : RpcId) : Option Nat := alistLookup p k

def pendingErase (p : Pending) (k : RpcId) : Pending := alistErase p k

/-- A decoded inbound response as the client reads it (`msg`): property
accesses `msg.ok`, `msg.result`, `msg.error`, `msg.stats` may find the field
absent on the wire, hence the `Option`s. -/
structure ClientMsg : Type where
  id : RpcId
  ok : Bool
  result : Option JsonValue
  error : Option JsonValue
  stats : Option RpcStats
deriving DecidableEq, Repr

/-- What the `ws.onmessage` handler does to a caller: resolve with
`\x7bdata: msg.result, stats: msg.stats\x7d` or reject with `\x7berror: msg.error, stats: msg.stats\x7d`. -/
inductive CallerEvent : Type
  | resolved (caller : Nat) (data : Option JsonValue) (stats : Option RpcStats)
  | rejected (caller : Nat) (error : Option JsonValue) (stats : Option RpcStats)
deriving DecidableEq, Repr

/-- The correlation step of `ws.onmessage` (rpcClient.ts lines 61–70): look
the response id up in the pending table; if absent return (discard silently);
if present delete the entry, then resolve or reject that caller according to
`msg.ok`.  Returns the new table and the caller event, if any. -/
def onMessage (p : Pending) (m : ClientMsg) : Pending × Option CallerEvent :=
  match pendingLookup p m.id with
  | none => (p, none)
  | some caller =>
    let p1 := pendingErase p m.id
    if m.ok then (p1, some (.resolved caller m.result m.stats))
    else (p1, some (.rejected caller m.error m.stats))

/-- Outcome of `ws.send` inside `rpcCall`: it either succeeds or throws. -/
inductive SendOutcome : Type
  | sent
  | threw (e : String)
deriving DecidableEq, Repr

/-- What `rpcCall` did to its caller in the send phase. -/
inductive RpcCallEvent : Type
  | awaitingResponse
  | rejectedOnSend (e : String)
deriving DecidableEq, Repr

/-- The send phase of `rpcCall` (rpcClient.ts lines 167–186): register the
pending entry under the fresh id *before* transmitting, then send; if `send`
throws, delete the entry and only then reject the caller with the thrown
error. -/
def rpcCallSendPhase (p : Pending) (id : RpcId) (caller : Nat) (send : SendOutcome) :
    Pending × RpcCallEvent :=
  let p1 : Pending := (id, caller) :: p
  match send with
  | .sent => (p1, .awaitingResponse)
  | .threw e => (pendingErase p1 id, .rejectedOnSend e)

/-! ### Inbound decode (rpcClient.ts lines 39–59)

`JSON.parse` and `msgpackDecode` are modelled abstractly: a raw message
carries what each codec would yield on it (`none` = that decode throws). -/

inductive Encoding : Type
  | json
  | msgpack
deriving DecidableEq, Repr

/-- An undecoded payload, described by the outcome of each decoder on it. -/
structure RawMsg : Type where
  asJson : Option ClientMsg
  asMsgpack : Option ClientMsg
deriving DecidableEq, Repr

/-- `event.data`: either an `ArrayBuffer` (binary) or a string (text). -/
inductive WireData : Type
  | binary (raw : RawMsg)
  | text (raw : RawMsg)
deriving DecidableEq, Repr

inductive DecodeErr : Type
  | jsonParseFailed
  | msgpackDecodeFailed
deriving DecidableEq, Repr

/-- The decode section of `ws.onmessage` (lines 44–59):
binary data is decoded as msgpack only (regardless of the advertised
encoding); text data with advertised encoding json is parsed as JSON only;
text data with advertised encoding msgpack is tried as JSON first with a
msgpack fallback.  An `error` result models the exception escaping the
`onmessage` handler. -/
def decodeClientMessage (clientEncoding : Encoding) : WireData → Except DecodeErr ClientMsg
  | .binary raw =>
    match raw.asMsgpack with
    | some m => .ok m
    | none => .error .msgpackDecodeFailed
  | .text raw =>
    match clientEncoding with
    | .json =>
      match raw.asJson with
      | some m => .ok m
      | none => .error .jsonParseFailed
    | .msgpack =>
      match raw.asJson with
      | some m => .ok m
      | none =>
        match raw.asMsgpack with
        | some m => .ok m
        | none => .error .msgpackDecodeFailed

/-- `true` iff the decode surfaced an error. -/
def decodeFailed (r : Except DecodeErr ClientMsg) : Bool :=
  match r with
  | .error _ => true
  | .ok _ => false

/-! ### Connection establishment (rpcClient.ts `ensureSocketReady`, lines 83–159)

Sockets and connection promises are heap objects; the module state refers to
at most one of each (`socket`, `connectionPromise`).  A promise record keeps
the callers awaiting it and its settlement. -/

inductive SockState : Type
  | connecting
  | opened
  | closedSt
deriving DecidableEq, Repr

inductive ConnSettle : Type
  | resolvedOk
  | rejectedWith (msg : String)
deriving DecidableEq, Repr

structure PromiseRec : Type where
  waiters : List Nat
  settled : Option ConnSettle
deriving DecidableEq, Repr

/-- Client module state for the connection manager.  `sockets` and
`promises` are the heaps of every socket / promise object created so far,
so creating a second connection attempt is observable as heap growth. -/
structure CMState : Type where
  socket : Option Nat
  connectionPromise : Option Nat
  sockets : List (Nat × SockState)
  promises : List (Nat × PromiseRec)
  nextSockId : Nat
  nextPromId : Nat
deriving DecidableEq, Repr

inductive EnsureResult : Type
  | readyNow (sock : Nat)
  | waitOn (prom : Nat)
deriving DecidableEq, Repr

def sockStateOf (s : CMState) (r : Nat) : Option SockState := alistLookup s.sockets r

/-- Awaiting the returned promise registers the caller on it. -/
def addWaiter (s : CMState) (p : Nat) (c : Nat) : CMState :=
  { s with promises := alistModify s.promises p (fun pr => { pr with waiters := pr.waiters ++ [c] }) }

/-- Branch 4 of `ensureSocketReady` (lines 127–158): `createSocket()` plus a
fresh connection promise with the caller awaiting it. -/
def newAttempt (c : Nat) (s : CMState) : CMState × EnsureResult :=
  let r := s.nextSockId
  let p := s.nextPromId
  ({ s with socket := some r, sockets := (r, .connecting) :: s.sockets, nextSockId := r + 1,
            connectionPromise := some p,
            promises := (p, { waiters := [c], settled := none }) :: s.promises,
            nextPromId := p + 1 },
   .waitOn p)

/-- `ensureSocketReady` for caller `c`: (1) an open socket resolves
immediately; (2) an in-progress connection promise is reused; (3) a
connecting socket without a promise gets one attached; (4) otherwise a new
socket and promise are created. -/
def ensureSocketReady (c : Nat) (s : CMState) : CMState × EnsureResult :=
  match s.socket with
  | some r =>
    if sockStateOf s r = some .opened then (s, .readyNow r)
    else
      match s.connectionPromise with
      | some p => (addWaiter s p c, .waitOn p)
      | none =>
        if sockStateOf s r = some .connecting then
          let p := s.nextPromId
          ({ s with connectionPromise := some p,
                    promises := (p, { waiters := [c], settled := none }) :: s.promises,
                    nextPromId := p + 1 },
           .waitOn p)
        else newAttempt c s
  | none =>
    match s.connectionPromise with
    | some p => (addWaiter s p c, .waitOn p)
    | none => newAttempt c s

def settleProm (s : CMState) (p : Nat) (v : ConnSettle) : CMState :=
  { s with promises := alistModify s.promises p (fun pr => { pr with settled := some v }) }

/-- The `handleError` listener of the in-progress attempt (lines 140–145):
`socket = null; connectionPromise = null; reject(new Error("WebSocket connection failed"))`.
Settling the promise as rejected rejects every caller registered on it. -/
def onSocketError (s : CMState) : CMState :=
  match s.connectionPromise with
  | some p =>
    { settleProm s p (.rejectedWith "WebSocket connection failed") with
      socket := none, connectionPromise := none }
  | none => s

/-- The `handleClose` listener while connecting (lines 146–151). -/
def onSocketCloseBeforeOpen (s : CMState) : CMState :=
  match s.connectionPromise with
  | some p =>
    { settleProm s p (.rejectedWith "WebSocket closed before opening") with
      socket := none, connectionPromise := none }
  | none => s

/-- The `handleOpen` listener (lines 135–139): clear `connectionPromise`,
resolve the promise with the socket; the socket object is now open. -/
def onSocketOpen (s : CMState) : CMState :=
  match s.socket, s.connectionPromise with
  | some r, some p =>
    { settleProm s p .resolvedOk with
      sockets := alistModify s.sockets r (fun _ => .opened),
      connectionPromise := none }
  | _, _ => s

/-! ## Worker supervisor (defineWorker.ts)

`runningWorkers : Map<string, \x7babortController, promise, instance\x7d>` holds a
*reference* to each mutable `WorkerInstance` object; the embedding makes the
sharing explicit with a heap of numbered instance cells.  A worker handler is
a possibly stateful JS closure, modelled by the outcome of its n-th run:
`none` = returns normally, `some e` = throws an error with message `e`. -/

inductive WStatus : Type
  | running
  | stopped
  | crashed
  | restarting
deriving DecidableEq, Repr

/-- `WorkerInstance` run-state fields (`stop` is a closure over the
supervisor operations and is not a data field of the model). `startedAt`
(a `Date`) is modelled by the index of the run that set it. -/
structure WInstance : Type where
  id : String
  name : String
  status : WStatus
  startedAt : Option Nat
  restartCount : Nat
  lastError : Option String
deriving DecidableEq, Repr

/-- `Required<WorkerOptions>` after `defineWorker` resolves defaults. -/
structure WorkerOptions : Type where
  name : String
  autoRestart : Bool
  restartDelayMs : Nat
  maxRestarts : Nat
  autoStart : Bool
deriving DecidableEq, Repr

/-- `HeliumWorkerDef` (the `__kind: "worker"` tag is implicit in the type). -/
structure HeliumWorkerDef : Type where
  id : String
  name : String
  handler : Nat → Option String
  options : WorkerOptions

/-- Supervisor state: the instance heap, the `runningWorkers` name → instance
reference map, and the set of abort signals that have fired. -/
structure SupState : Type where
  heap : List (Nat × WInstance)
  workers : List (String × Nat)
  abortedRefs : List Nat
  nextRef : Nat
deriving DecidableEq, Repr

def supEmpty : SupState := { heap := [], workers := [], abortedRefs := [], nextRef := 0 }

/-- `abortController.signal.aborted` for the instance at `r`. -/
def workerAborted (s : SupState) (r : Nat) : Bool := s.abortedRefs.contains r

/-- Mutate the instance object at reference `r` (the loop body writes
`instance.status`, `instance.restartCount`, ... through its reference). -/
def supModifyInst (s : SupState) (r : Nat) (f : WInstance → WInstance) : SupState :=
  { s with heap := alistModify s.heap r f }

/-- `runningWorkers.delete(name)`. -/
def supDeleteWorker (s : SupState) (name : String) : SupState :=
  { s with workers := alistErase s.workers name }

/-- The `runWorker` loop of `startWorker` (defineWorker.ts lines 166–217),
run to completion.  `runs` counts handler invocations so far; `restartCount`
is the loop-local counter; the result is `none` only when `fuel` runs out
(the loop would still be running), otherwise the final state and the total
number of handler runs.  Restart delays suspend the loop but do not change
this sequential state. -/
def runWorkerLoop (w : HeliumWorkerDef) (ref : Nat) :
    Nat → Nat → Nat → SupState → Option (SupState × Nat)
  | 0, _, _, _ => none
  | fuel + 1, runs, restartCount, s =>
    if workerAborted s ref then
      some (s, runs)
    else
      let s := supModifyInst s ref (fun i => { i with status := .running, startedAt := some runs })
      match w.handler runs with
      | none =>
        -- handler completed normally (lines 176–182)
        if workerAborted s ref then some (s, runs + 1)
        else
          let s := supModifyInst s ref (fun i => { i with status := .stopped })
          some (supDeleteWorker s w.name, runs + 1)
      | some e =>
        -- handler threw (lines 183–215)
        if workerAborted s ref then some (s, runs + 1)
        else
          let rc := restartCount + 1
          let s := supModifyInst s ref (fun i =>
            { i with lastError := some e, status := .crashed, restartCount := rc })
          if w.options.autoRestart then
            if w.options.maxRestarts > 0 ∧ rc ≥ w.options.maxRestarts then
              some (supDeleteWorker s w.name, runs + 1)
            else
              let s := supModifyInst s ref (fun i => { i with status := .restarting })
              runWorkerLoop w ref fuel (runs + 1) rc s
          else
            some (supDeleteWorker s w.name, runs + 1)

inductive StartResult : Type
  | alreadyRunning (ref : Nat)
  | completed (ref : Nat) (runs : Nat)
  | outOfFuel
deriving DecidableEq, Repr

/-- `startWorker` (defineWorker.ts lines 139–228): a name already present in
`runningWorkers` is a warned no-op returning the existing instance; otherwise
a fresh instance is allocated, registered, and its run loop executed.  In
the source `runningWorkers.set` runs when the async loop first suspends
(every crash path suspends for `restartDelayMs`); the model registers the
entry before running the loop, which agrees with the source on every
execution the theorems below examine. -/
def startWorker (fuel : Nat) (w : HeliumWorkerDef) (s : SupState) : SupState × StartResult :=
  match alistLookup s.workers w.name with
  | some r => (s, .alreadyRunning r)
  | none =>
    let r := s.nextRef
    let inst : WInstance :=
      { id := w.name, name := w.name, status := .running, startedAt := some 0,
        restartCount := 0, lastError := none }
    let s1 : SupState :=
      { s with heap := (r, inst) :: s.heap, nextRef := r + 1, workers := (w.name, r) :: s.workers }
    match runWorkerLoop w r fuel 0 0 s1 with
    | some (s2, runs) => (s2, .completed r runs)
    | none => (s1, .outOfFuel)

/-- `getWorkerStatus()` (lines 261–263): `Array.from(runningWorkers.values()).map(w => w.instance)`
returns the stored instance *references*. -/
def getWorkerStatus (s : SupState) : List Nat := s.workers.map (fun e => e.2)

/-- `getWorkerById(name)` (lines 266–270): the stored instance reference. -/
def getWorkerById (s : SupState) (name : String) : Option Nat := alistLookup s.workers name

/-- What the supervisor itself sees for a worker name: the instance object
its registry entry points to. -/
def observeInstance (s : SupState) (name : String) : Option WInstance :=
  (getWorkerById s name).bind (fun r => alistLookup s.heap r)

/-- A caller holding an instance reference returned by a status query
mutates the object through it. -/
def writeInstance (s : SupState) (r : Nat) (f : WInstance → WInstance) : SupState :=
  supModifyInst s r f

/-! ## Concrete fixtures used by the theorems below -/

/-- A worker whose handler always throws immediately, with
`autoRestart = true, restartDelayMs = 10, maxRestarts = 2`. -/
def c1worker : HeliumWorkerDef :=
  { id := "w", name := "w", handler := fun _ => some "boom",
    options := { name := "w", autoRestart := true, restartDelayMs := 10,
                 maxRestarts := 2, autoStart := true } }

/-- Registry holding one method `getTasks`; no middleware. -/
def sampleReg : Registry :=
  { methods := [("getTasks", { handler := fun _ _ => .ok (.str "tasks") })],
    middleware := none }

def sampleFrameOk : RawFrame := .encodes { id := .str "1", method := "getTasks", args := none }

def sampleFrameUnknown : RawFrame :=
  .encodes { id := .str "1", method := "doesNotExist", args := none }

/-- The same registry with a middleware that returns normally without ever
invoking its continuation. -/
def blockedReg : Registry :=
  { methods := [("getTasks", { handler := fun _ _ => .ok (.str "tasks") })],
    middleware := some (fun _ => .done (.ok ())) }

def sampleFrame7 : RawFrame := .encodes { id := .str "7", method := "getTasks", args := none }

/-- A supervisor state holding one running worker `"w"` whose instance lives
at heap cell 0. -/
def c8inst : WInstance :=
  { id := "w", name := "w", status := .running, startedAt := some 0,
    restartCount := 0, lastError := none }

def c8state : SupState :=
  { heap := [(0, c8inst)], workers := [("w", 0)], abortedRefs := [], nextRef := 1 }

/-! ## C1 — restart bound -/

/-- **C1** (code bug). The claim — 1 initial run + 2 restarts = 3 runs and a
terminal Stopped state — matches the option's own documentation ("Maximum
number of restart attempts before giving up", and the worker docs' example
"This will crash and restart up to 3 times" with `maxRestarts: 3`), but the
code increments `restartCount` on each crash *before* testing
`restartCount >= maxRestarts`, so with `maxRestarts = 2` the always-throwing
handler runs only **2** times (1 initial + 1 restart), and the give-up path
never sets the status to `stopped`: the instance is left `crashed` with
`restartCount = 2`.  Only the third conjunct of the claim (absence from the
active-worker listing) holds. -/
theorem c1_restart_bound_code_bug :
    (startWorker 10 c1worker supEmpty).2 = .completed 0 2 ∧
    alistLookup (startWorker 10 c1worker supEmpty).1.heap 0 =
      some { id := "w", name := "w", status := .crashed, startedAt := some 1,
             restartCount := 2, lastError := some "boom" } ∧
    getWorkerStatus (startWorker 10 c1worker supEmpty).1 = [] := by
  decide

/-! ## C7 — stats on every response -/

/-- **C7** (code bug). The declared protocol types (`RpcSuccess`, `RpcError`)
require a `stats` field on every response, and the client reads `msg.stats`,
but `handleMessage` builds every response — success and failure alike —
without any `stats` field, so no emitted frame conforms to the declared
protocol shape. -/
theorem c7_stats_missing_code_bug :
    handleMessage sampleReg sampleFrameOk = [successResponse (.str "1") (some (.str "tasks"))] ∧
    (successResponse (.str "1") (some (.str "tasks"))).stats = none ∧
    matchesDeclaredProtocol (successResponse (.str "1") (some (.str "tasks"))) = false ∧
    handleMessage sampleReg sampleFrameUnknown = [unknownMethodResponse (.str "1") "doesNotExist"] ∧
    (unknownMethodResponse (.str "1") "doesNotExist").stats = none ∧
    matchesDeclaredProtocol (unknownMethodResponse (.str "1") "doesNotExist") = false := by
  decide

/-! ## C8 — status queries -/

/-- **C8** (counterexample). `getWorkerStatus` returns the stored instance
*references*, not copies: mutating the object returned for worker `"w"`
changes what the supervisor itself subsequently observes for `"w"`, so the
claim "mutating the returned object leaves supervisor-owned state unchanged"
is false. -/
theorem c8_snapshot_counterexample :
    getWorkerStatus c8state = [0] ∧
    observeInstance c8state "w" = some c8inst ∧
    observeInstance (writeInstance c8state 0 (fun i => { i with status := .stopped })) "w" =
      some { c8inst with status := .stopped } ∧
    observeInstance (writeInstance c8state 0 (fun i => { i with status := .stopped })) "w" ≠
      observeInstance c8state "w" := by
  decide

/-- **C8** (amended). Status queries return references to the live
supervisor-owned instance objects rather than snapshots: a mutation through
the reference a status query returned is visible in the supervisor's own
subsequent reads of that worker. -/
theorem c8_live_reference_amended :
    ∀ (s : SupState) (name : String) (r : Nat) (f : WInstance → WInstance) (i : WInstance),
      getWorkerById s name = some r →
      alistLookup s.heap r = some i →
      getWorkerById (writeInstance s r f) name = some r ∧
      alistLookup (writeInstance s r f).heap r = some (f i) ∧
      observeInstance (writeInstance s r f) name = some (f i) := by
  intro s name r f i h1 h2
  have hw : getWorkerById (writeInstance s r f) name = some r := h1
  have hh : alistLookup (writeInstance s r f).heap r = some (f i) :=
    alistLookup_modify_self s.heap r f i h2
  exact ⟨hw, hh, by simp [observeInstance, hw, hh]⟩

/-- Witness for the amended C8 at the concrete one-worker state. -/
theorem c8_live_reference_amended_witness :
    getWorkerById (writeInstance c8state 0 (fun i => { i with status := .crashed })) "w" = some 0 ∧
    alistLookup (writeInstance c8state 0 (fun i => { i with status := .crashed })).heap 0 =
      some { c8inst with status := .crashed } ∧
    observeInstance (writeInstance c8state 0 (fun i => { i with status := .crashed })) "w" =
      some { c8inst with status := .crashed } :=
  c8_live_reference_amended c8state "w" 0 (fun i => { i with status := .crashed }) c8inst
    (by decide) (by decide)

/-! ## C2 — exactly one response per decodable frame -/

/-- **C2** (confirmed). For every registry (any methods, any middleware that
awaits its continuation, any handler, throwing or not) and every inbound
frame: an undecodable frame produces no response, and a decodable frame
produces exactly one.  `handleMessage` is a total function — every exception
a handler or middleware raises is consumed into the single failure response,
which is the embedded form of "no exception propagates out of the
dispatcher". -/
theorem c2_exactly_one_response :
    ∀ (reg : Registry) (f : RawFrame),
      (decodeFrame f = none → handleMessage reg f = []) ∧
      (∀ req, decodeFrame f = some req → (handleMessage reg f).length = 1) := by
  intro reg f
  constructor
  · intro h
    simp [handleMessage, handleMessageAux, h]
  · intro req h
    simp only [handleMessage, handleMessageAux, h]
    unfold dispatchReq
    cases alistLookup reg.methods req.method with
    | none => rfl
    | some d =>
      cases reg.middleware with
      | none => rcases hE : d.handler req.args () with v | e <;> simp [hE]
      | some mw =>
        rcases hrun : (runMw (fun _ => d.handler req.args ())
            (mw { type := .method, methodName := some req.method }) initRunState) with ⟨rs, out⟩
        cases out with
        | error e => simp [hrun]
        | ok u => cases hnc : rs.nextCalled <;> simp [hrun, hnc]

/-- Witness for C2: the malformed frame sends nothing; a well-formed frame
sends exactly one frame. -/
theorem c2_exactly_one_response_witness :
    handleMessage sampleReg .malformed = [] ∧
    (handleMessage sampleReg sampleFrameOk).length = 1 :=
  ⟨(c2_exactly_one_response sampleReg .malformed).1 rfl,
   (c2_exactly_one_response sampleReg sampleFrameOk).2
     { id := .str "1", method := "getTasks", args := none } rfl⟩

/-! ## C5 — blocked request -/

/-- **C5** (counterexample). With a registered method and a middleware that
returns without invoking its continuation, the dispatcher's blocked response
carries `error` as the structured object `\x7bmessage: "Request blocked by middleware"\x7d`,
not as the bare string the claim states. -/
theorem c5_blocked_request_counterexample :
    handleMessage blockedReg sampleFrame7 ≠
      [{ id := .str "7", ok := false, stats := none, result := none,
         error := some (.bare "Request blocked by middleware") }] ∧
    (handleMessage blockedReg sampleFrame7).map (fun r => r.error) =
      [some (.structured "Request blocked by middleware")] := by
  decide

/-- **C5** (amended). For every request dispatched while a middleware is
installed that returns normally without ever invoking its continuation, the
dispatcher responds with the single failure frame
`\x7bid, ok: false, error: \x7bmessage: "Request blocked by middleware"\x7d\x7d`
(and no `stats` field), and the target method handler is never invoked. -/
theorem c5_blocked_request_amended :
    ∀ (reg : Registry) (f : RawFrame) (req : RpcRequest) (d : MethodDef) (mw : Middleware),
      decodeFrame f = some req →
      alistLookup reg.methods req.method = some d →
      reg.middleware = some mw →
      (∀ mctx, mw mctx = .done (.ok ())) →
      handleMessage reg f = [blockedResponse req.id] ∧ handlerInvocations reg f = 0 := by
  intro reg f req d mw hf hm hmw hblock
  constructor <;>
    simp [handleMessage, handlerInvocations, handleMessageAux, hf, dispatchReq, hm, hmw,
      hblock, runMw, initRunState]

/-- Witness for the amended C5 at the concrete blocked registry. -/
theorem c5_blocked_request_amended_witness :
    handleMessage blockedReg sampleFrame7 = [blockedResponse (.str "7")] ∧
    handlerInvocations blockedReg sampleFrame7 = 0 :=
  c5_blocked_request_amended blockedReg sampleFrame7
    { id := .str "7", method := "getTasks", args := none }
    { handler := fun _ _ => .ok (.str "tasks") }
    (fun _ => .done (.ok ())) rfl rfl rfl (fun _ => rfl)

/-! ## C6 — unknown method -/

/-- **C6** (counterexample). Calling the unregistered method `doesNotExist`
yields a failure whose `error` field is the structured object
`\x7bmessage: "Unknown method doesNotExist"\x7d`, not the bare string the claim
(and the declared protocol type) state. -/
theorem c6_unknown_method_counterexample :
    handleMessage sampleReg sampleFrameUnknown ≠
      [{ id := .str "1", ok := false, stats := none, result := none,
         error := some (.bare "Unknown method doesNotExist") }] ∧
    (handleMessage sampleReg sampleFrameUnknown).map (fun r => r.error) =
      [some (.structured "Unknown method doesNotExist")] := by
  decide

/-- **C6** (amended). For every decodable request whose method is not in the
registry, the dispatcher responds with exactly one failure frame carrying the
request's id whose `error` field is the structured object
`\x7bmessage: "Unknown method <name>"\x7d` (and no `stats` field). -/
theorem c6_unknown_method_amended :
    ∀ (reg : Registry) (f : RawFrame) (req : RpcRequest),
      decodeFrame f = some req →
      alistLookup reg.methods req.method = none →
      handleMessage reg f = [unknownMethodResponse req.id req.method] ∧
      unknownMethodResponse req.id req.method =
        { id := req.id, ok := false, stats := none, result := none,
          error := some (.structured ("Unknown method " ++ req.method)) } := by
  intro reg f req hf hm
  exact ⟨by simp [handleMessage, handleMessageAux, hf, dispatchReq, hm], rfl⟩

/-- Witness for the amended C6 at method `doesNotExist`. -/
theorem c6_unknown_method_amended_witness :
    handleMessage sampleReg sampleFrameUnknown =
      [unknownMethodResponse (.str "1") "doesNotExist"] ∧
    unknownMethodResponse (.str "1") "doesNotExist" =
      { id := .str "1", ok := false, stats := none, result := none,
        error := some (.structured ("Unknown method " ++ "doesNotExist")) } :=
  c6_unknown_method_amended sampleReg sampleFrameUnknown
    { id := .str "1", method := "doesNotExist", args := none } rfl rfl

/-! ## C3 — response correlation on the client -/

/-- **C3** (confirmed). For every pending table and inbound response: if the
response id is absent from the table, the frame is discarded silently and
the table is unchanged; if present, exactly that entry is removed (its key
now looks up to nothing, every other key is untouched) and its caller is
resolved when `ok` is true and rejected when `ok` is false. -/
theorem c3_correlation :
    ∀ (p : Pending) (m : ClientMsg),
      (pendingLookup p m.id = none → onMessage p m = (p, none)) ∧
      (∀ caller, pendingLookup p m.id = some caller →
        (onMessage p m).2 = some (if m.ok then .resolved caller m.result m.stats
                                  else .rejected caller m.error m.stats) ∧
        pendingLookup (onMessage p m).1 m.id = none ∧
        ∀ k, k ≠ m.id → pendingLookup (onMessage p m).1 k = pendingLookup p k) := by
  intro p m
  constructor
  · intro h
    simp [onMessage, h]
  · intro caller h
    have h1 : (onMessage p m).1 = pendingErase p m.id := by
      cases hm : m.ok <;> simp [onMessage, h, hm]
    refine ⟨?_, ?_, ?_⟩
    · cases hm : m.ok <;> simp [onMessage, h, hm]
    · rw [h1]
      exact alistLookup_erase_self p m.id
    · intro k hk
      rw [h1]
      exact alistLookup_erase_ne p m.id k hk

/-- A pending table with one in-flight request and a matching success
response. -/
def c3pending : Pending := [(.str "a", 5)]

def c3msg : ClientMsg :=
  { id := .str "a", ok := true, result := some (.str "r"), error := none, stats := none }

/-- Witness for C3 at the one-entry table: the matching caller is resolved,
its entry is gone, other keys are untouched. -/
theorem c3_correlation_witness :
    (onMessage c3pending c3msg).2 = some (.resolved 5 (some (.str "r")) none) ∧
    pendingLookup (onMessage c3pending c3msg).1 (.str "a") = none ∧
    pendingLookup (onMessage c3pending c3msg).1 (.str "b") = pendingLookup c3pending (.str "b") := by
  have h := (c3_correlation c3pending c3msg).2 5 (by decide)
  exact ⟨h.1, h.2.1, h.2.2 (.str "b") (by decide)⟩

/-! ## C10 — failed send leaves no pending entry -/

/-- **C10** (confirmed). In the send phase of `rpcCall`, when the request id
is fresh (as `uuid()` ids are, being absent from the table) and `ws.send`
throws, the pending entry registered before the transmit attempt is deleted
again — in the source the `pending.delete(id)` precedes the `reject(err)` —
and the caller is rejected with the thrown error, leaving the table exactly
in its pre-call state. -/
theorem c10_send_failure_no_leak :
    ∀ (p : Pending) (id : RpcId) (caller : Nat) (e : String),
      pendingLookup p id = none →
      rpcCallSendPhase p id caller (.threw e) = (p, .rejectedOnSend e) := by
  intro p id caller e h
  have h2 : pendingErase ((id, caller) :: p) id = p := by
    simp only [pendingErase, alistErase, if_pos rfl]
    exact alistErase_of_lookup_none p id h
  simp only [rpcCallSendPhase]
  rw [h2]

/-- Witness for C10: a fresh id on a nonempty table, send throws, table
restored. -/
theorem c10_send_failure_no_leak_witness :
    rpcCallSendPhase [(.str "a", 5)] (.str "x") 3 (.threw "send failed") =
      ([(.str "a", 5)], .rejectedOnSend "send failed") :=
  c10_send_failure_no_leak [(.str "a", 5)] (.str "x") 3 "send failed" (by decide)

/-! ## C9 — defensive decoding -/

/-- A message every decoder could yield, for the decode fixtures. -/
def c9msg : ClientMsg :=
  { id := .str "1", ok := true, result := some (.str "r"), error := none, stats := none }

/-- **C9** (counterexample). With advertised encoding `json`, a text message
that fails `JSON.parse` surfaces a decode error even though the other format
(msgpack) would have decoded it — the fallback the claim requires is never
attempted on this path. -/
theorem c9_defensive_decode_counterexample :
    decodeFailed (decodeClientMessage .json (.text { asJson := none, asMsgpack := some c9msg }))
      = true ∧
    ({ asJson := none, asMsgpack := some c9msg } : RawMsg).asMsgpack ≠ none := by
  decide

/-- **C9** (amended). The defensive fallback exists only for text messages
when the advertised encoding is msgpack: there JSON is attempted first and
msgpack as fallback, so a decode error is surfaced only when both formats
fail.  A text message under advertised encoding `json` surfaces a decode
error whenever `JSON.parse` fails, without attempting msgpack, and a binary
message is decoded as msgpack only, for either advertised encoding. -/
theorem c9_defensive_decode_amended :
    ∀ (raw : RawMsg) (enc : Encoding),
      (decodeFailed (decodeClientMessage .msgpack (.text raw)) = true →
        raw.asJson = none ∧ raw.asMsgpack = none) ∧
      (raw.asJson = none → decodeFailed (decodeClientMessage .json (.text raw)) = true) ∧
      (raw.asMsgpack = none → decodeFailed (decodeClientMessage enc (.binary raw)) = true) := by
  intro raw enc
  obtain ⟨aj, am⟩ := raw
  cases aj <;> cases am <;>
    simp [decodeClientMessage, decodeFailed]

/-- Witness for the amended C9: both formats failing is the only way the
msgpack-advertised text path errors, and the json-advertised text path
errors as soon as JSON fails. -/
theorem c9_defensive_decode_amended_witness :
    (({ asJson := none, asMsgpack := none } : RawMsg).asJson = none ∧
      ({ asJson := none, asMsgpack := none } : RawMsg).asMsgpack = none) ∧
    decodeFailed (decodeClientMessage .json
      (.text { asJson := none, asMsgpack := some c9msg })) = true :=
  ⟨(c9_defensive_decode_amended { asJson := none, asMsgpack := none } .json).1 (by decide),
   (c9_defensive_decode_amended { asJson := none, asMsgpack := some c9msg } .json).2.1 rfl⟩

/-! ## C4 — connection coalescing -/

/-- **C4** (confirmed). The module state holds at most one socket and at
most one connection promise by construction (both are single `Option`
fields); behaviorally, for any state with a connection attempt in progress
(a connecting socket `r` and in-progress promise `p`):
(a) a further caller receives the *same* promise `p`, is registered on it,
and no new socket is created;
(b) if the attempt fails (`handleError`), the state drops its socket and
promise and the shared promise is settled rejected with the connection
error — rejecting every caller registered on it;
(b') if the attempt is prematurely closed while connecting (`handleClose`),
the state is likewise cleared and the shared promise is settled rejected
with the close error — rejecting every caller registered on it;
(c) the next call after the failure, and (c') the next call after the
premature close, each allocate a fresh socket and a fresh promise (a new
attempt). -/
theorem c4_connection_coalescing :
    ∀ (s : CMState) (c c' r p : Nat) (pr : PromiseRec),
      s.socket = some r →
      sockStateOf s r = some .connecting →
      s.connectionPromise = some p →
      alistLookup s.promises p = some pr →
      ((ensureSocketReady c s).2 = .waitOn p ∧
       (ensureSocketReady c s).1.sockets = s.sockets ∧
       (ensureSocketReady c s).1.connectionPromise = some p ∧
       alistLookup (ensureSocketReady c s).1.promises p =
         some { pr with waiters := pr.waiters ++ [c] }) ∧
      ((onSocketError s).socket = none ∧
       (onSocketError s).connectionPromise = none ∧
       alistLookup (onSocketError s).promises p =
         some { pr with settled := some (.rejectedWith "WebSocket connection failed") }) ∧
      ((onSocketCloseBeforeOpen s).socket = none ∧
       (onSocketCloseBeforeOpen s).connectionPromise = none ∧
       alistLookup (onSocketCloseBeforeOpen s).promises p =
         some { pr with settled := some (.rejectedWith "WebSocket closed before opening") }) ∧
      ((ensureSocketReady c' (onSocketError s)).2 = .waitOn (onSocketError s).nextPromId ∧
       (ensureSocketReady c' (onSocketError s)).1.socket = some (onSocketError s).nextSockId ∧
       (ensureSocketReady c' (onSocketError s)).1.sockets.length = s.sockets.length + 1) ∧
      ((ensureSocketReady c' (onSocketCloseBeforeOpen s)).2 =
         .waitOn (onSocketCloseBeforeOpen s).nextPromId ∧
       (ensureSocketReady c' (onSocketCloseBeforeOpen s)).1.socket =
         some (onSocketCloseBeforeOpen s).nextSockId ∧
       (ensureSocketReady c' (onSocketCloseBeforeOpen s)).1.sockets.length =
         s.sockets.length + 1) := by
  intro s c c' r p pr hs hc hp hpr
  have hE : ensureSocketReady c s = (addWaiter s p c, .waitOn p) := by
    simp [ensureSocketReady, hs, hc, hp]
  have hOE : onSocketError s =
      { settleProm s p (.rejectedWith "WebSocket connection failed") with
        socket := none, connectionPromise := none } := by
    unfold onSocketError
    rw [hp]
  have hOC : onSocketCloseBeforeOpen s =
      { settleProm s p (.rejectedWith "WebSocket closed before opening") with
        socket := none, connectionPromise := none } := by
    unfold onSocketCloseBeforeOpen
    rw [hp]
  have hs1 : (onSocketError s).socket = none := by rw [hOE]
  have hs2 : (onSocketError s).connectionPromise = none := by rw [hOE]
  have hs3 : (onSocketCloseBeforeOpen s).socket = none := by rw [hOC]
  have hs4 : (onSocketCloseBeforeOpen s).connectionPromise = none := by rw [hOC]
  have hE2 : ensureSocketReady c' (onSocketError s) = newAttempt c' (onSocketError s) := by
    simp only [ensureSocketReady, hs1, hs2]
  have hE3 : ensureSocketReady c' (onSocketCloseBeforeOpen s) =
      newAttempt c' (onSocketCloseBeforeOpen s) := by
    simp only [ensureSocketReady, hs3, hs4]
  refine ⟨⟨?_, ?_, ?_, ?_⟩, ⟨hs1, hs2, ?_⟩, ⟨hs3, hs4, ?_⟩, ⟨?_, ?_, ?_⟩, ⟨?_, ?_, ?_⟩⟩
  · rw [hE]
  · rw [hE]
    exact rfl
  · rw [hE]
    exact hp
  · rw [hE]
    exact alistLookup_modify_self s.promises p _ pr hpr
  · rw [hOE]
    exact alistLookup_modify_self s.promises p _ pr hpr
  · rw [hOC]
    exact alistLookup_modify_self s.promises p _ pr hpr
  · rw [hE2]
    exact rfl
  · rw [hE2]
    exact rfl
  · rw [hE2]
    simp [newAttempt, hOE, settleProm]
  · rw [hE3]
    exact rfl
  · rw [hE3]
    exact rfl
  · rw [hE3]
    simp [newAttempt, hOC, settleProm]

/-- A state with one connection attempt in progress: socket 0 is connecting
and promise 0 has caller 1 awaiting it. -/
def c4state : CMState :=
  { socket := some 0, connectionPromise := some 0,
    sockets := [(0, .connecting)],
    promises := [(0, { waiters := [1], settled := none })],
    nextSockId := 1, nextPromId := 1 }

/-- Witness for C4 at the concrete in-progress state, with caller 2 joining
the attempt and caller 3 arriving after its failure or premature close. -/
theorem c4_connection_coalescing_witness :
    ((ensureSocketReady 2 c4state).2 = .waitOn 0 ∧
     (ensureSocketReady 2 c4state).1.sockets = c4state.sockets ∧
     (ensureSocketReady 2 c4state).1.connectionPromise = some 0 ∧
     alistLookup (ensureSocketReady 2 c4state).1.promises 0 =
       some { waiters := [1, 2], settled := none }) ∧
    ((onSocketError c4state).socket = none ∧
     (onSocketError c4state).connectionPromise = none ∧
     alistLookup (onSocketError c4state).promises 0 =
       some { waiters := [1], settled := some (.rejectedWith "WebSocket connection failed") }) ∧
    ((onSocketCloseBeforeOpen c4state).socket = none ∧
     (onSocketCloseBeforeOpen c4state).connectionPromise = none ∧
     alistLookup (onSocketCloseBeforeOpen c4state).promises 0 =
       some { waiters := [1], settled := some (.rejectedWith "WebSocket closed before opening") }) ∧
    ((ensureSocketReady 3 (onSocketError c4state)).2 = .waitOn (onSocketError c4state).nextPromId ∧
     (ensureSocketReady 3 (onSocketError c4state)).1.socket =
       some (onSocketError c4state).nextSockId ∧
     (ensureSocketReady 3 (onSocketError c4state)).1.sockets.length =
       c4state.sockets.length + 1) ∧
    ((ensureSocketReady 3 (onSocketCloseBeforeOpen c4state)).2 =
       .waitOn (onSocketCloseBeforeOpen c4state).nextPromId ∧
     (ensureSocketReady 3 (onSocketCloseBeforeOpen c4state)).1.socket =
       some (onSocketCloseBeforeOpen c4state).nextSockId ∧
     (ensureSocketReady 3 (onSocketCloseBeforeOpen c4state)).1.sockets.length =
       c4state.sockets.length + 1) :=
  c4_connection_coalescing c4state 2 3 0 0 { waiters := [1], settled := none }
    (by decide) (by decide) (by decide) (by decide)

end Helium
